import Mathlib

/-!
Shallow embedding of the libdomain session layer (src/src/domain.c).

C strings are modelled as Lean strings tagged with an ownership region
(`Owner`): strings handed in by the caller live in caller memory, strings
copied by `talloc_strdup`, `talloc_strndup` or `talloc_asprintf` into the
session lifetime arena are tagged `sessionArena`, and strings copied into a
per-operation arena are tagged `opArena`.  A nullable C string is an
`Option CStr`.  `strlen` is modelled as `String.length` (the strings the
library handles are ordinary NUL-free byte strings).  Functions that can
dereference a null pointer return `Option`; `none` models the crash.
glibc renders a null `char*` passed to a `%s` conversion as the literal
string "(null)"; `fmt_s` reflects that.
-/

namespace Libdomain

/-- Ownership region of a C string in the talloc hierarchy. -/
inductive Owner where
  | caller
  | sessionArena
  | opArena
deriving DecidableEq, Repr

/-- A non-null C string: its owning region and its contents. -/
structure CStr where
  owner : Owner
  s : String
deriving DecidableEq, Repr

/-- strlen, modelled on Lean strings. -/
def strlen (s : String) : Nat := s.length

/-- glibc printf renders a null string argument of a %s conversion as "(null)". -/
def fmt_s : Option CStr → String
  | none => "(null)"
  | some c => c.s

/-- talloc_strdup into the session lifetime arena; talloc_strdup(ctx, NULL) is NULL. -/
def talloc_strdup_session (c : CStr) : CStr := ⟨Owner.sessionArena, c.s⟩

/-- talloc_strdup into a per-operation arena. -/
def talloc_strdup_op (c : CStr) : CStr := ⟨Owner.opArena, c.s⟩

/-- Return codes of the operation surface (from common.h, fixed by the spec:
a two-value enumeration SUCCESS / FAILURE). -/
inductive OperationReturnCode where
  | RETURN_CODE_SUCCESS
  | RETURN_CODE_FAILURE
deriving DecidableEq, Repr

/-- LDAP_VERSION3 from ldap.h. -/
def LDAP_VERSION3 : Int := 3

/-- LDAP_MOD_ADD from ldap.h. -/
def LDAP_MOD_ADD : Int := 0

/-- LDAP_MOD_DELETE from ldap.h. -/
def LDAP_MOD_DELETE : Int := 1

/-- LDAP_MOD_REPLACE from ldap.h. -/
def LDAP_MOD_REPLACE : Int := 2

/-- LDAP_SASL_QUIET from ldap.h. -/
def LDAP_SASL_QUIET : Int := 2

/-- The settings record ld_config_t (domain.h): host, protocol version,
bind credentials, feature flags, timeout and TLS certificate paths. -/
structure LdConfig where
  host : CStr
  protocol_version : Int
  base_dn : CStr
  username : Option CStr
  password : Option CStr
  simple_bind : Bool
  use_tls : Bool
  use_sasl : Bool
  use_anon : Bool
  timeout : Int
  cacertfile : CStr
  certfile : CStr
  keyfile : CStr
deriving DecidableEq, Repr

/-- The key/value contents of a configuration file as the libconfig
collaborator reports them to ld_load_config: each recognized key is either
present with a value or absent. -/
structure ConfigFile where
  host : Option String
  port : Option Int
  protocol_version : Option Int
  base_dn : Option String
  username : Option String
  password : Option String
  simple_bind : Option Bool
  use_tls : Option Bool
  use_sasl : Option Bool
  use_anon : Option Bool
  timeout : Option Int
  ca_cert_file : Option String
  cert_file : Option String
  key_file : Option String
deriving DecidableEq, Repr

/-- ld_load_config (domain.c lines 74-173).  host and base_dn are required:
a missing key makes the loader return NULL.  port defaults to 0,
protocol_version to LDAP_VERSION3, timeout to 0, the flags to false, the
certificate paths to "".  host becomes "(host):(port)" when port > 0 and the
bare host otherwise.  All produced strings live in the caller context. -/
def ld_load_config (f : ConfigFile) : Option LdConfig :=
  match f.host with
  | none => none
  | some host =>
    let port : Int := f.port.getD 0
    let host_field : CStr :=
      if port > 0 then ⟨Owner.caller, host ++ ":" ++ toString port⟩
      else ⟨Owner.caller, host⟩
    match f.base_dn with
    | none => none
    | some base_dn =>
      some
        { host := host_field
          protocol_version := f.protocol_version.getD LDAP_VERSION3
          base_dn := ⟨Owner.caller, base_dn⟩
          username := f.username.map (fun u => ⟨Owner.caller, u⟩)
          password := f.password.map (fun p => ⟨Owner.caller, p⟩)
          simple_bind := f.simple_bind.getD false
          use_tls := f.use_tls.getD false
          use_sasl := f.use_sasl.getD false
          use_anon := f.use_anon.getD false
          timeout := f.timeout.getD 0
          cacertfile := ⟨Owner.caller, f.ca_cert_file.getD ""⟩
          certfile := ⟨Owner.caller, f.cert_file.getD ""⟩
          keyfile := ⟨Owner.caller, f.key_file.getD ""⟩ }

/-- ld_create_config (domain.c lines 195-260).  A null talloc context fails
construction.  host becomes "(host):(port)" when port > 0, else the bare
host string; username and password stay NULL when NULL; the certificate
paths fall back to "". -/
def ld_create_config (talloc_ctx_nonnull : Bool) (host : Option CStr) (port : Int)
    (protocol_version : Int) (base_dn : CStr) (username : Option CStr)
    (password : Option CStr) (simple_bind : Bool) (use_tls : Bool) (use_sasl : Bool)
    (use_anon : Bool) (timeout : Int) (cacertfile : Option CStr)
    (certfile : Option CStr) (keyfile : Option CStr) : Option LdConfig :=
  if !talloc_ctx_nonnull then none
  else
    some
      { host :=
          if port > 0 then ⟨Owner.caller, fmt_s host ++ ":" ++ toString port⟩
          else ⟨Owner.caller, fmt_s host⟩
        protocol_version := protocol_version
        base_dn := ⟨Owner.caller, base_dn.s⟩
        username := username.map (fun u => ⟨Owner.caller, u.s⟩)
        password := password.map (fun p => ⟨Owner.caller, p.s⟩)
        simple_bind := simple_bind
        use_tls := use_tls
        use_sasl := use_sasl
        use_anon := use_anon
        timeout := timeout
        cacertfile := ⟨Owner.caller, (cacertfile.map CStr.s).getD ""⟩
        certfile := ⟨Owner.caller, (certfile.map CStr.s).getD ""⟩
        keyfile := ⟨Owner.caller, (keyfile.map CStr.s).getD ""⟩ }

/-- SASL mechanism selector.  LDAP_SASL_SIMPLE is the SASL-simple marker of
ldap.h (a distinguished constant, not a mechanism name string). -/
inductive SaslMech where
  | simple
  | named (s : String)
deriving DecidableEq, Repr

/-- The ldap_sasl_options_t sub-record filled by ld_init. -/
structure SaslOptions where
  mechanism : SaslMech
  passwd : Option CStr
  sasl_nocanon : Bool
  sasl_secprops : String
  sasl_flags : Int
deriving DecidableEq, Repr

/-- Modelled from the spec: the bind kinds of connection.h, which is not in
src; the spec says the bind kind is SIMPLE or INTERACTIVE. -/
inductive BindType where
  | BIND_TYPE_SIMPLE
  | BIND_TYPE_INTERACTIVE
deriving DecidableEq, Repr

/-- The ldap_sasl_params_t sub-record: bind DN and the berval holding the
bind password (length plus value pointer). -/
structure LdapParams where
  dn : CStr
  passwd_bv_len : Nat
  passwd_bv_val : Option CStr
deriving DecidableEq, Repr

/-- The ldap_connection_config_t derived by ld_init (fields from domain.c
lines 289-322; the struct itself comes zeroed from talloc_zero, hence the
none defaults for the optional sub-records). -/
structure ConfigCtx where
  server : CStr
  protocol_verion : Int
  use_sasl : Bool
  use_start_tls : Bool
  chase_referrals : Bool
  bind_type : BindType
  sasl_options : Option SaslOptions
  tls_ca_cert_file : Option CStr
  tls_cert_file : Option CStr
  tls_key_file : Option CStr
deriving DecidableEq, Repr

/-- The session handle LDHandle: the shallow-copied settings record, the
derived configuration context and the bind parameters of the connection
context. -/
structure LDHandle where
  global_config : LdConfig
  config_ctx : ConfigCtx
  ldap_params : LdapParams
deriving DecidableEq, Repr

/-- Body of ld_init (domain.c lines 283-332) on a non-null config.
talloc_memdup copies the ld_config_t struct byte for byte, so every string
field of global_config keeps its original owner tag (the pointers alias the
caller strings); config_ctx->server is a plain pointer assignment from
config->host.  The SASL password, the TLS paths, the bind DN and the bind
password value are fresh talloc copies in the session arena.  The external
connection_configure call and the debug-level side channel carry no data
back into these fields. -/
def ld_init (config : LdConfig) : LDHandle :=
  { global_config := config
    config_ctx :=
      { server := config.host
        protocol_verion := config.protocol_version
        use_sasl := config.use_sasl
        use_start_tls := config.use_tls
        chase_referrals := false
        bind_type :=
          if config.simple_bind then BindType.BIND_TYPE_SIMPLE
          else BindType.BIND_TYPE_INTERACTIVE
        sasl_options :=
          if config.use_sasl then
            some
              { mechanism :=
                  if config.simple_bind then SaslMech.simple else SaslMech.named "GSSAPI"
                passwd := config.password.map talloc_strdup_session
                sasl_nocanon := true
                sasl_secprops := "minssf=56"
                sasl_flags := LDAP_SASL_QUIET }
          else none
        tls_ca_cert_file :=
          if config.use_tls then some (talloc_strdup_session config.cacertfile) else none
        tls_cert_file :=
          if config.use_tls then some (talloc_strdup_session config.certfile) else none
        tls_key_file :=
          if config.use_tls then some (talloc_strdup_session config.keyfile) else none }
    ldap_params :=
      { dn := ⟨Owner.sessionArena, "cn=" ++ fmt_s config.username ++ "," ++ config.base_dn.s⟩
        passwd_bv_len :=
          match config.password with
          | none => 0
          | some p => strlen p.s
        passwd_bv_val := config.password.map talloc_strdup_session } }

/-- What ld_init stored through its LDHandle** out-parameter. -/
inductive InitStored where
  | rawHandle
  | session (h : LDHandle)
deriving DecidableEq, Repr

/-- The C entry point ld_init(LDHandle** handle, const ld_config_t* config)
(domain.c lines 267-343).  Its very first statement stores through handle,
so a null handle pointer is a null dereference: modelled as none (crash).
With a null config it has already written a freshly malloc-ed, uninitialized
block through the pointer when it logs and returns (rawHandle).  malloc is
assumed to succeed. -/
def ld_init_c (handle_ptr_null : Bool) (config : Option LdConfig) :
    Option (InitStored × List String) :=
  if handle_ptr_null then none
  else
    match config with
    | none => some (InitStored.rawHandle, ["Config is invalid!"])
    | some cfg => some (InitStored.session (ld_init cfg), [])

/-- Modelled from the spec: the connection states of
connection_state_machine.h, which is not in src; the spec lists INIT,
TLS_START, BIND, RUN, ERROR. -/
inductive ConnState where
  | INIT
  | TLS_START
  | BIND
  | RUN
  | ERROR
deriving DecidableEq, Repr

/-- The part of the connection context the tick handler touches: the current
state of its state machine. -/
structure Conn where
  state : ConnState
deriving DecidableEq, Repr

/-- CONNECTION_UPDATE_INTERVAL (domain.c line 34), in milliseconds. -/
def CONNECTION_UPDATE_INTERVAL : Nat := 1000

/-- A verto timer event: its persist flag, its interval in milliseconds and
whether it is still registered (verto_del clears registration). -/
structure TimerEv where
  persist : Bool
  interval : Nat
  registered : Bool
deriving DecidableEq, Repr

/-- connection_update (domain.c lines 345-359): one csm_next_state call —
kept abstract as the function next — then verto_del exactly when the
resulting state is RUN or ERROR. -/
def connection_update (next : Conn → Conn) (c : Conn) (ev : TimerEv) : Conn × TimerEv :=
  let c2 := next c
  if c2.state = ConnState.RUN ∨ c2.state = ConnState.ERROR then
    (c2, { ev with registered := false })
  else (c2, ev)

/-- ld_install_default_handlers (domain.c lines 366-377): with a null handle
it logs and installs nothing; otherwise it registers a persistent verto
timeout with connection_update at CONNECTION_UPDATE_INTERVAL. -/
def ld_install_default_handlers (handle : Option LDHandle) :
    Option TimerEv × List String :=
  match handle with
  | none => (none, ["Invalid handle was provided - ld_install_default_handlers\n"])
  | some _ =>
    (some { persist := true, interval := CONNECTION_UPDATE_INTERVAL, registered := true }, [])

/-- n event-loop rounds: a persistent timer that is still registered fires
connection_update once per round; a deregistered timer never fires. -/
def tickRun (next : Conn → Conn) : Nat → Conn × TimerEv → Conn × TimerEv
  | 0, s => s
  | n + 1, (c, ev) =>
    if ev.registered then tickRun next n (connection_update next c ev) else (c, ev)

/-- Observable actions of the remaining void API functions on the event loop,
the connection and the talloc hierarchy. -/
inductive ApiAction where
  | addTimeout (persist : Bool) (interval : Nat)
  | runLoop
  | runLoopOnce
  | closeConnection
  | freeArena
  | freeHandle
  | setErrorHandler
deriving DecidableEq, Repr

/-- ld_install_handler (domain.c lines 383-393): null handle logs and
returns; otherwise a persistent timeout with a caller-supplied callback and
interval is registered. -/
def ld_install_handler (handle : Option LDHandle) (interval : Nat) :
    List ApiAction × List String :=
  match handle with
  | none => ([], ["Invalid handle was provided - ld_install_handler\n"])
  | some _ => ([ApiAction.addTimeout true interval], [])

/-- ld_install_error_handler (domain.c lines 638-653): a null handle or a
null callback logs and stores nothing. -/
def ld_install_error_handler (handle : Option LDHandle) (callback_nonnull : Bool) :
    List ApiAction × List String :=
  match handle with
  | none => ([], ["Invalid handle - ld_install_error_handler\n"])
  | some _ =>
    if !callback_nonnull then ([], ["Invalid callback - ld_install_error_handler\n"])
    else ([ApiAction.setErrorHandler], [])

/-- ld_exec (domain.c lines 400-409). -/
def ld_exec (handle : Option LDHandle) : List ApiAction × List String :=
  match handle with
  | none => ([], ["Invalid handle was provided - ld_exec\n"])
  | some _ => ([ApiAction.runLoop], [])

/-- ld_exec_once (domain.c lines 415-424). -/
def ld_exec_once (handle : Option LDHandle) : List ApiAction × List String :=
  match handle with
  | none => ([], ["Invalid handle was provided - ld_exec_once\n"])
  | some _ => ([ApiAction.runLoopOnce], [])

/-- ld_free (domain.c lines 431-442): null handle logs and returns; otherwise
close the connection, free the lifetime arena, free the handle, in that
order. -/
def ld_free (handle : Option LDHandle) : List ApiAction × List String :=
  match handle with
  | none => ([], ["Invalid handle was provided - ld_free"])
  | some _ => ([ApiAction.closeConnection, ApiAction.freeArena, ApiAction.freeHandle], [])

/-- An input attribute LDAPAttribute_t: a name and a null-terminated value
array, modelled as a list (the terminator is the end of the list). -/
structure LDAPAttribute where
  name : CStr
  values : List CStr
deriving DecidableEq, Repr

/-- An LDAPMod of the protocol library: opcode, attribute type and a
null-terminated value array, modelled as a list. -/
structure LDAPMod where
  mod_op : Int
  mod_type : CStr
  mod_values : List CStr
deriving DecidableEq, Repr

/-- fill_attributes (domain.c lines 444-484): walks the null-terminated
entry_attrs array in order and builds a null-terminated LDAPMod array of the
same length, each entry carrying the given mod_op, a talloc_strdup copy of
the attribute name and talloc_strdup copies of the values in order.  The
count-then-copy loops of the C code are rendered as one structural pass. -/
def fill_attributes (entry_attrs : List LDAPAttribute) (mod_op : Int) : List LDAPMod :=
  match entry_attrs with
  | [] => []
  | a :: rest =>
    { mod_op := mod_op
      mod_type := talloc_strdup_op a.name
      mod_values := a.values.map talloc_strdup_op } :: fill_attributes rest mod_op

/-- Talloc contexts (arenas) live in this heap model: the list of live
arena identifiers and the next fresh identifier. -/
structure Mem where
  live : List Nat
  next : Nat
deriving DecidableEq, Repr

/-- talloc_new(NULL): allocate a fresh per-call arena. -/
def talloc_new_arena (m : Mem) : Nat × Mem :=
  (m.next, { live := m.next :: m.live, next := m.next + 1 })

/-- talloc_free on an arena identifier. -/
def talloc_free_arena (p : Nat) (m : Mem) : Mem :=
  { live := m.live.erase p, next := m.next }

/-- A call into the protocol library made by the operation surface. -/
inductive ProtoCall where
  | add (dn : String) (attrs : List LDAPMod)
  | del (dn : String)
  | modify (dn : String) (attrs : List LDAPMod)
  | rename (old_dn : String) (new_rdn : String) (new_parent : String) (delete_old_rdn : Bool)
deriving DecidableEq, Repr

/-- The DN (old DN for rename) a protocol call targets. -/
def ProtoCall.dn : ProtoCall → String
  | ProtoCall.add d _ => d
  | ProtoCall.del d => d
  | ProtoCall.modify d _ => d
  | ProtoCall.rename d _ _ _ => d

/-- Result of one entry operation: the returned code, the protocol calls
made, the diagnostics logged and the heap after the call. -/
structure OpResult where
  rc : OperationReturnCode
  calls : List ProtoCall
  log : List String
  mem : Mem
deriving DecidableEq, Repr

/-- Modelled from the spec: the check_handle and check_string macros of
common.h, which is not in src.  Per spec 4.6 steps 1-2 each operation first
validates the session handle and then each required string argument, logging
and returning FAILURE on a null; on success check_string passes the argument
through.  This shape is fixed by the use sites in domain.c (the checks
precede the arena allocation and entry_name/entry_parent carry the checked
strings afterwards).  The helper below is that fail-fast result. -/
def checkFail (fn : String) (m : Mem) : Option OpResult :=
  some
    { rc := OperationReturnCode.RETURN_CODE_FAILURE
      calls := []
      log := [fn ++ " - invalid argument"]
      mem := m }

/-- ld_add_entry (domain.c lines 496-522).  outcome is the protocol library
verdict on the add call.  A null prefix flows into talloc_asprintf and is
rendered "(null)" by glibc. -/
def ld_add_entry (outcome : ProtoCall → OperationReturnCode) (handle : Option LDHandle)
    (name : Option CStr) (parent : Option CStr) (pfx : Option CStr)
    (entry_attrs : List LDAPAttribute) (m : Mem) : Option OpResult :=
  match handle with
  | none => checkFail "ld_add_entry" m
  | some _ =>
    match name with
    | none => checkFail "ld_add_entry" m
    | some entry_name =>
      match parent with
      | none => checkFail "ld_add_entry" m
      | some entry_parent =>
        let (arena, m1) := talloc_new_arena m
        let dn := fmt_s pfx ++ "=" ++ entry_name.s ++ "," ++ entry_parent.s
        let attrs := fill_attributes entry_attrs LDAP_MOD_ADD
        let call := ProtoCall.add dn attrs
        let rc := outcome call
        some { rc := rc, calls := [call], log := [], mem := talloc_free_arena arena m1 }

/-- ld_del_entry (domain.c lines 534-555). -/
def ld_del_entry (outcome : ProtoCall → OperationReturnCode) (handle : Option LDHandle)
    (name : Option CStr) (parent : Option CStr) (pfx : Option CStr) (m : Mem) :
    Option OpResult :=
  match handle with
  | none => checkFail "ld_del_entry" m
  | some _ =>
    match name with
    | none => checkFail "ld_del_entry" m
    | some entry_name =>
      match parent with
      | none => checkFail "ld_del_entry" m
      | some entry_parent =>
        let (arena, m1) := talloc_new_arena m
        let dn := fmt_s pfx ++ "=" ++ entry_name.s ++ "," ++ entry_parent.s
        let call := ProtoCall.del dn
        let rc := outcome call
        some { rc := rc, calls := [call], log := [], mem := talloc_free_arena arena m1 }

/-- ld_mod_entry (domain.c lines 567-593): like add but with
LDAP_MOD_REPLACE, and fill_attributes runs before the DN is composed. -/
def ld_mod_entry (outcome : ProtoCall → OperationReturnCode) (handle : Option LDHandle)
    (name : Option CStr) (parent : Option CStr) (pfx : Option CStr)
    (entry_attrs : List LDAPAttribute) (m : Mem) : Option OpResult :=
  match handle with
  | none => checkFail "ld_mod_entry" m
  | some _ =>
    match name with
    | none => checkFail "ld_mod_entry" m
    | some entry_name =>
      match parent with
      | none => checkFail "ld_mod_entry" m
      | some entry_parent =>
        let (arena, m1) := talloc_new_arena m
        let attrs := fill_attributes entry_attrs LDAP_MOD_REPLACE
        let dn := fmt_s pfx ++ "=" ++ entry_name.s ++ "," ++ entry_parent.s
        let call := ProtoCall.modify dn attrs
        let rc := outcome call
        some { rc := rc, calls := [call], log := [], mem := talloc_free_arena arena m1 }

/-- ld_rename_entry (domain.c lines 606-631): old DN prefix=old_name,parent,
new RDN prefix=new_name, new parent = parent, delete-old-RDN true. -/
def ld_rename_entry (outcome : ProtoCall → OperationReturnCode) (handle : Option LDHandle)
    (old_name : Option CStr) (new_name : Option CStr) (parent : Option CStr)
    (pfx : Option CStr) (m : Mem) : Option OpResult :=
  match handle with
  | none => checkFail "ld_rename_entry" m
  | some _ =>
    match old_name with
    | none => checkFail "ld_rename_entry" m
    | some entry_old_name =>
      match new_name with
      | none => checkFail "ld_rename_entry" m
      | some entry_new_name =>
        match parent with
        | none => checkFail "ld_rename_entry" m
        | some entry_parent =>
          let (arena, m1) := talloc_new_arena m
          let old_dn := fmt_s pfx ++ "=" ++ entry_old_name.s ++ "," ++ entry_parent.s
          let new_dn := fmt_s pfx ++ "=" ++ entry_new_name.s
          let call := ProtoCall.rename old_dn new_dn entry_parent.s true
          let rc := outcome call
          some { rc := rc, calls := [call], log := [], mem := talloc_free_arena arena m1 }

/-- ld_mod_entry_attrs (domain.c lines 667-701): caller-supplied opcode; the
DN separator depends on strlen(prefix) — and strlen of a null prefix is a
null dereference (none, crash), reached after the per-call arena was
allocated. -/
def ld_mod_entry_attrs (outcome : ProtoCall → OperationReturnCode)
    (handle : Option LDHandle) (name : Option CStr) (parent : Option CStr)
    (pfx : Option CStr) (entry_attrs : List LDAPAttribute) (opcode : Int) (m : Mem) :
    Option OpResult :=
  match handle with
  | none => checkFail "ld_mod_entry_attrs" m
  | some _ =>
    match name with
    | none => checkFail "ld_mod_entry_attrs" m
    | some entry_name =>
      match parent with
      | none => checkFail "ld_mod_entry_attrs" m
      | some entry_parent =>
        let (arena, m1) := talloc_new_arena m
        let attrs := fill_attributes entry_attrs opcode
        match pfx with
        | none => none
        | some pre =>
          let dn :=
            if strlen pre.s > 0 then pre.s ++ "=" ++ entry_name.s ++ "," ++ entry_parent.s
            else entry_name.s ++ "," ++ entry_parent.s
          let call := ProtoCall.modify dn attrs
          let rc := outcome call
          some { rc := rc, calls := [call], log := [], mem := talloc_free_arena arena m1 }

/-- The protocol modification list a call carries (empty for del and rename). -/
def ProtoCall.mods : ProtoCall → List LDAPMod
  | ProtoCall.add _ a => a
  | ProtoCall.del _ => []
  | ProtoCall.modify _ a => a
  | ProtoCall.rename _ _ _ _ => []

/-- A concrete settings record used to instantiate theorems with hypotheses. -/
def cfgEx : LdConfig :=
  { host := ⟨Owner.caller, "dc1.example:636"⟩
    protocol_version := 3
    base_dn := ⟨Owner.caller, "dc=example,dc=com"⟩
    username := some ⟨Owner.caller, "admin"⟩
    password := some ⟨Owner.caller, "s3cret"⟩
    simple_bind := false
    use_tls := true
    use_sasl := true
    use_anon := false
    timeout := 0
    cacertfile := ⟨Owner.caller, "/etc/ca.pem"⟩
    certfile := ⟨Owner.caller, ""⟩
    keyfile := ⟨Owner.caller, ""⟩ }

/-- A concrete session handle. -/
def hEx : LDHandle := ld_init cfgEx

/-- A concrete protocol verdict: every call succeeds. -/
def ocEx : ProtoCall → OperationReturnCode :=
  fun _ => OperationReturnCode.RETURN_CODE_SUCCESS

/-- A concrete initial heap with no live arenas. -/
def memEx : Mem := { live := [], next := 0 }

/-- C3: for ld_add_entry, ld_del_entry and ld_mod_entry with non-null name,
parent and prefix, the DN handed to the protocol operation is exactly
"(prefix)=(name),(parent)"; for ld_mod_entry_attrs the DN is
"(prefix)=(name),(parent)" when the prefix is non-empty and
"(name),(parent)" (no "=") when the prefix is the empty string. -/
theorem c3_dn_composition :
    (∀ (outcome : ProtoCall → OperationReturnCode) (h : LDHandle) (n p pre : CStr)
       (attrs : List LDAPAttribute) (m : Mem),
       (ld_add_entry outcome (some h) (some n) (some p) (some pre) attrs m).map
           (fun r => r.calls.map ProtoCall.dn) =
         some [pre.s ++ "=" ++ n.s ++ "," ++ p.s]) ∧
    (∀ (outcome : ProtoCall → OperationReturnCode) (h : LDHandle) (n p pre : CStr) (m : Mem),
       (ld_del_entry outcome (some h) (some n) (some p) (some pre) m).map
           (fun r => r.calls.map ProtoCall.dn) =
         some [pre.s ++ "=" ++ n.s ++ "," ++ p.s]) ∧
    (∀ (outcome : ProtoCall → OperationReturnCode) (h : LDHandle) (n p pre : CStr)
       (attrs : List LDAPAttribute) (m : Mem),
       (ld_mod_entry outcome (some h) (some n) (some p) (some pre) attrs m).map
           (fun r => r.calls.map ProtoCall.dn) =
         some [pre.s ++ "=" ++ n.s ++ "," ++ p.s]) ∧
    (∀ (outcome : ProtoCall → OperationReturnCode) (h : LDHandle) (n p pre : CStr)
       (attrs : List LDAPAttribute) (opcode : Int) (m : Mem),
       strlen pre.s > 0 →
       (ld_mod_entry_attrs outcome (some h) (some n) (some p) (some pre) attrs opcode m).map
           (fun r => r.calls.map ProtoCall.dn) =
         some [pre.s ++ "=" ++ n.s ++ "," ++ p.s]) ∧
    (∀ (outcome : ProtoCall → OperationReturnCode) (h : LDHandle) (n p pre : CStr)
       (attrs : List LDAPAttribute) (opcode : Int) (m : Mem),
       pre.s = "" →
       (ld_mod_entry_attrs outcome (some h) (some n) (some p) (some pre) attrs opcode m).map
           (fun r => r.calls.map ProtoCall.dn) =
         some [n.s ++ "," ++ p.s]) := by
  refine ⟨fun _ _ _ _ _ _ _ => rfl, fun _ _ _ _ _ _ => rfl, fun _ _ _ _ _ _ _ => rfl, ?_, ?_⟩
  · intro outcome h n p pre attrs opcode m hpre
    simp only [ld_mod_entry_attrs, if_pos hpre]
    rfl
  · intro outcome h n p pre attrs opcode m hpre
    have hz : ¬ strlen pre.s > 0 := by simp [strlen, hpre]
    simp only [ld_mod_entry_attrs, if_neg hz]
    rfl

/-- Witness for C3: concrete inputs discharging the non-empty and empty
prefix hypotheses of the ld_mod_entry_attrs conjuncts. -/
theorem c3_dn_composition_witness :
    (ld_mod_entry_attrs (fun _ => OperationReturnCode.RETURN_CODE_SUCCESS)
        (some (ld_init
          { host := ⟨Owner.caller, "dc1.example:389"⟩, protocol_version := 3
            base_dn := ⟨Owner.caller, "dc=example,dc=com"⟩, username := none, password := none
            simple_bind := false, use_tls := false, use_sasl := false, use_anon := false
            timeout := 0, cacertfile := ⟨Owner.caller, ""⟩, certfile := ⟨Owner.caller, ""⟩
            keyfile := ⟨Owner.caller, ""⟩ }))
        (some ⟨Owner.caller, "u1"⟩) (some ⟨Owner.caller, "ou=people,dc=example,dc=com"⟩)
        (some ⟨Owner.caller, "cn"⟩) [] LDAP_MOD_REPLACE ⟨[], 0⟩).map
        (fun r => r.calls.map ProtoCall.dn) =
      some ["cn=u1,ou=people,dc=example,dc=com"] ∧
    (ld_mod_entry_attrs (fun _ => OperationReturnCode.RETURN_CODE_SUCCESS)
        (some (ld_init
          { host := ⟨Owner.caller, "dc1.example:389"⟩, protocol_version := 3
            base_dn := ⟨Owner.caller, "dc=example,dc=com"⟩, username := none, password := none
            simple_bind := false, use_tls := false, use_sasl := false, use_anon := false
            timeout := 0, cacertfile := ⟨Owner.caller, ""⟩, certfile := ⟨Owner.caller, ""⟩
            keyfile := ⟨Owner.caller, ""⟩ }))
        (some ⟨Owner.caller, "u1"⟩) (some ⟨Owner.caller, "ou=people,dc=example,dc=com"⟩)
        (some ⟨Owner.caller, ""⟩) [] LDAP_MOD_REPLACE ⟨[], 0⟩).map
        (fun r => r.calls.map ProtoCall.dn) =
      some ["u1,ou=people,dc=example,dc=com"] := by
  constructor
  · have h := c3_dn_composition.2.2.2.1 (fun _ => OperationReturnCode.RETURN_CODE_SUCCESS)
      (ld_init
        { host := ⟨Owner.caller, "dc1.example:389"⟩, protocol_version := 3
          base_dn := ⟨Owner.caller, "dc=example,dc=com"⟩, username := none, password := none
          simple_bind := false, use_tls := false, use_sasl := false, use_anon := false
          timeout := 0, cacertfile := ⟨Owner.caller, ""⟩, certfile := ⟨Owner.caller, ""⟩
          keyfile := ⟨Owner.caller, ""⟩ })
      ⟨Owner.caller, "u1"⟩ ⟨Owner.caller, "ou=people,dc=example,dc=com"⟩ ⟨Owner.caller, "cn"⟩
      [] LDAP_MOD_REPLACE ⟨[], 0⟩ (by decide)
    simpa using h
  · have h := c3_dn_composition.2.2.2.2 (fun _ => OperationReturnCode.RETURN_CODE_SUCCESS)
      (ld_init
        { host := ⟨Owner.caller, "dc1.example:389"⟩, protocol_version := 3
          base_dn := ⟨Owner.caller, "dc=example,dc=com"⟩, username := none, password := none
          simple_bind := false, use_tls := false, use_sasl := false, use_anon := false
          timeout := 0, cacertfile := ⟨Owner.caller, ""⟩, certfile := ⟨Owner.caller, ""⟩
          keyfile := ⟨Owner.caller, ""⟩ })
      ⟨Owner.caller, "u1"⟩ ⟨Owner.caller, "ou=people,dc=example,dc=com"⟩ ⟨Owner.caller, ""⟩
      [] LDAP_MOD_REPLACE ⟨[], 0⟩ rfl
    simpa using h

/-- C4: fill_attributes turns a null-terminated attribute list into a
null-terminated protocol modification list of the same length and order,
each entry carrying a copy of the attribute name and of its value sequence
and the chosen opcode; ld_add_entry passes LDAP_MOD_ADD, ld_mod_entry
LDAP_MOD_REPLACE and ld_mod_entry_attrs the caller-supplied opcode.  The
null terminators of the C arrays are the list ends of the model. -/
theorem c4_attribute_translation :
    (∀ (attrs : List LDAPAttribute) (op : Int),
       (fill_attributes attrs op).length = attrs.length) ∧
    (∀ (attrs : List LDAPAttribute) (op : Int),
       fill_attributes attrs op =
         attrs.map (fun a =>
           { mod_op := op
             mod_type := talloc_strdup_op a.name
             mod_values := a.values.map talloc_strdup_op })) ∧
    (∀ (outcome : ProtoCall → OperationReturnCode) (h : LDHandle) (n p pre : CStr)
       (attrs : List LDAPAttribute) (m : Mem),
       (ld_add_entry outcome (some h) (some n) (some p) (some pre) attrs m).map
           (fun r => r.calls.map ProtoCall.mods) =
         some [fill_attributes attrs LDAP_MOD_ADD]) ∧
    (∀ (outcome : ProtoCall → OperationReturnCode) (h : LDHandle) (n p pre : CStr)
       (attrs : List LDAPAttribute) (m : Mem),
       (ld_mod_entry outcome (some h) (some n) (some p) (some pre) attrs m).map
           (fun r => r.calls.map ProtoCall.mods) =
         some [fill_attributes attrs LDAP_MOD_REPLACE]) ∧
    (∀ (outcome : ProtoCall → OperationReturnCode) (h : LDHandle) (n p pre : CStr)
       (attrs : List LDAPAttribute) (opcode : Int) (m : Mem),
       (ld_mod_entry_attrs outcome (some h) (some n) (some p) (some pre) attrs opcode m).map
           (fun r => r.calls.map ProtoCall.mods) =
         some [fill_attributes attrs opcode]) := by
  refine ⟨?_, ?_, fun _ _ _ _ _ _ _ => rfl, fun _ _ _ _ _ _ _ => rfl,
    fun _ _ _ _ _ _ _ _ => rfl⟩
  · intro attrs op
    induction attrs with
    | nil => rfl
    | cons a rest ih => simp [fill_attributes, ih]
  · intro attrs op
    induction attrs with
    | nil => rfl
    | cons a rest ih => simp [fill_attributes, ih]

/-- C5: a settings record produced by either constructor with a non-null
hostname has host equal to "(hostname):(port)" (decimal, no padding) when
port is positive and the bare hostname when port is zero or negative. -/
theorem c5_host_formatting :
    (∀ (host : CStr) (port protocol_version : Int) (base_dn : CStr)
       (username password : Option CStr) (sb ut us ua : Bool) (timeout : Int)
       (ca ce ke : Option CStr),
       (ld_create_config true (some host) port protocol_version base_dn username password
           sb ut us ua timeout ca ce ke).map (fun r => r.host.s) =
         some (if port > 0 then host.s ++ ":" ++ toString port else host.s)) ∧
    (∀ (f : ConfigFile) (hostname base_dn : String),
       f.host = some hostname → f.base_dn = some base_dn →
       (ld_load_config f).map (fun r => r.host.s) =
         some (if f.port.getD 0 > 0 then hostname ++ ":" ++ toString (f.port.getD 0)
               else hostname)) := by
  constructor
  · intro host port pv bd un pw sb ut us ua t ca ce ke
    simp only [ld_create_config, Bool.not_true, Bool.false_eq_true, if_false, Option.map_some]
    split <;> rfl
  · intro f hostname base_dn hh hb
    simp only [ld_load_config, hh, hb, Option.map_some]
    split <;> rfl

/-- Witness for C5: the loader on a file with host "dc1.example" and
port 636 produces host "dc1.example:636". -/
theorem c5_host_formatting_witness :
    (ld_load_config
        { host := some "dc1.example", port := some 636, protocol_version := none
          base_dn := some "dc=example,dc=com", username := none, password := none
          simple_bind := none, use_tls := none, use_sasl := none, use_anon := none
          timeout := none, ca_cert_file := none, cert_file := none,
          key_file := none }).map (fun r => r.host.s) = some "dc1.example:636" := by
  have h := c5_host_formatting.2
    { host := some "dc1.example", port := some 636, protocol_version := none
      base_dn := some "dc=example,dc=com", username := none, password := none
      simple_bind := none, use_tls := none, use_sasl := none, use_anon := none
      timeout := none, ca_cert_file := none, cert_file := none, key_file := none }
    "dc1.example" "dc=example,dc=com" rfl rfl
  simpa using h

/-- C8: ld_rename_entry with non-null arguments invokes the protocol rename
with old DN "(prefix)=(old_name),(parent)", new RDN "(prefix)=(new_name)",
new parent equal to the given parent and delete-old-RDN true. -/
theorem c8_rename_arguments
    (outcome : ProtoCall → OperationReturnCode) (h : LDHandle)
    (old_name new_name p pre : CStr) (m : Mem) :
    (ld_rename_entry outcome (some h) (some old_name) (some new_name) (some p) (some pre)
        m).map (fun r => r.calls) =
      some [ProtoCall.rename (pre.s ++ "=" ++ old_name.s ++ "," ++ p.s)
        (pre.s ++ "=" ++ new_name.s) p.s true] := rfl

/-- C6: after ld_init the SASL options sub-record is populated iff use_sasl;
when populated its mechanism is the SASL-simple marker if simple_bind is
also set and "GSSAPI" otherwise, its password is a copy of the settings
password, and it carries nocanon true, secprops "minssf=56" and the QUIET
flag; the TLS path triple is copied iff use_tls, and chase_referrals is
always false. -/
theorem c6_sasl_tls_wiring (cfg : LdConfig) :
    ((ld_init cfg).config_ctx.sasl_options.isSome ↔ cfg.use_sasl = true) ∧
    (∀ so, (ld_init cfg).config_ctx.sasl_options = some so →
       so.mechanism =
           (if cfg.simple_bind then SaslMech.simple else SaslMech.named "GSSAPI") ∧
         so.passwd = cfg.password.map talloc_strdup_session ∧
         so.sasl_nocanon = true ∧ so.sasl_secprops = "minssf=56" ∧
         so.sasl_flags = LDAP_SASL_QUIET) ∧
    ((ld_init cfg).config_ctx.tls_ca_cert_file.isSome ↔ cfg.use_tls = true) ∧
    ((ld_init cfg).config_ctx.tls_cert_file.isSome ↔ cfg.use_tls = true) ∧
    ((ld_init cfg).config_ctx.tls_key_file.isSome ↔ cfg.use_tls = true) ∧
    (cfg.use_tls = true →
       (ld_init cfg).config_ctx.tls_ca_cert_file =
           some (talloc_strdup_session cfg.cacertfile) ∧
         (ld_init cfg).config_ctx.tls_cert_file =
           some (talloc_strdup_session cfg.certfile) ∧
         (ld_init cfg).config_ctx.tls_key_file =
           some (talloc_strdup_session cfg.keyfile)) ∧
    (ld_init cfg).config_ctx.chase_referrals = false := by
  refine ⟨?_, ?_, ?_, ?_, ?_, ?_, rfl⟩
  · cases hs : cfg.use_sasl <;> simp [ld_init, hs]
  · intro so hso
    cases hs : cfg.use_sasl <;> simp [ld_init, hs] at hso
    · subst hso
      exact ⟨rfl, rfl, rfl, rfl, rfl⟩
  · cases ht : cfg.use_tls <;> simp [ld_init, ht]
  · cases ht : cfg.use_tls <;> simp [ld_init, ht]
  · cases ht : cfg.use_tls <;> simp [ld_init, ht]
  · intro ht
    exact ⟨by simp [ld_init, ht], by simp [ld_init, ht], by simp [ld_init, ht]⟩

/-- Witness for C6: on cfgEx (use_sasl and use_tls set, simple_bind clear)
the populated SASL sub-record carries mechanism GSSAPI, the password copy
and the fixed options, and the TLS triple is the copied paths. -/
theorem c6_sasl_tls_wiring_witness :
    ((ld_init cfgEx).config_ctx.sasl_options.isSome ↔ cfgEx.use_sasl = true) ∧
    ({ mechanism := SaslMech.named "GSSAPI"
       passwd := some ⟨Owner.sessionArena, "s3cret"⟩
       sasl_nocanon := true
       sasl_secprops := "minssf=56"
       sasl_flags := LDAP_SASL_QUIET : SaslOptions }.mechanism =
         (if cfgEx.simple_bind then SaslMech.simple else SaslMech.named "GSSAPI")) ∧
    (ld_init cfgEx).config_ctx.tls_ca_cert_file =
      some (talloc_strdup_session cfgEx.cacertfile) := by
  refine ⟨(c6_sasl_tls_wiring cfgEx).1, ?_, ((c6_sasl_tls_wiring cfgEx).2.2.2.2.2.1 rfl).1⟩
  exact ((c6_sasl_tls_wiring cfgEx).2.1
    { mechanism := SaslMech.named "GSSAPI"
      passwd := some ⟨Owner.sessionArena, "s3cret"⟩
      sasl_nocanon := true
      sasl_secprops := "minssf=56"
      sasl_flags := LDAP_SASL_QUIET } rfl).1

/-- C7: after ld_init the bind DN is exactly "cn=(username),(base_dn)" —
composed with no guard on username, a null username being rendered "(null)"
by glibc — and the bind password berval has length 0 and a null value when
the password is absent, and otherwise length strlen(password) and a session
copy of the password as value. -/
theorem c7_bind_parameters (cfg : LdConfig) :
    (ld_init cfg).ldap_params.dn.s = "cn=" ++ fmt_s cfg.username ++ "," ++ cfg.base_dn.s ∧
    (ld_init cfg).ldap_params.dn.owner = Owner.sessionArena ∧
    (∀ u, cfg.username = some u →
       (ld_init cfg).ldap_params.dn.s = "cn=" ++ u.s ++ "," ++ cfg.base_dn.s) ∧
    (cfg.password = none →
       (ld_init cfg).ldap_params.passwd_bv_len = 0 ∧
         (ld_init cfg).ldap_params.passwd_bv_val = none) ∧
    (∀ pw, cfg.password = some pw →
       (ld_init cfg).ldap_params.passwd_bv_len = strlen pw.s ∧
         (ld_init cfg).ldap_params.passwd_bv_val = some ⟨Owner.sessionArena, pw.s⟩) := by
  refine ⟨rfl, rfl, ?_, ?_, ?_⟩
  · intro u hu
    simp [ld_init, hu, fmt_s]
  · intro hp
    simp [ld_init, hp]
  · intro pw hp
    simp [ld_init, hp, talloc_strdup_session]

/-- Witness for C7: on cfgEx the bind DN is "cn=admin,dc=example,dc=com" and
the berval holds the 6 password bytes of "s3cret". -/
theorem c7_bind_parameters_witness :
    (ld_init cfgEx).ldap_params.dn.s = "cn=" ++ "admin" ++ "," ++ cfgEx.base_dn.s ∧
    (ld_init cfgEx).ldap_params.passwd_bv_len = strlen "s3cret" ∧
    (ld_init cfgEx).ldap_params.passwd_bv_val =
      some ⟨Owner.sessionArena, "s3cret"⟩ := by
  refine ⟨(c7_bind_parameters cfgEx).2.2.1 ⟨Owner.caller, "admin"⟩ rfl, ?_, ?_⟩
  · exact ((c7_bind_parameters cfgEx).2.2.2.2 ⟨Owner.caller, "s3cret"⟩ rfl).1
  · exact ((c7_bind_parameters cfgEx).2.2.2.2 ⟨Owner.caller, "s3cret"⟩ rfl).2

/-- C9: the default tick handler is a persistent timer at the fixed
1000-millisecond CONNECTION_UPDATE_INTERVAL; each fire performs exactly one
next_state call, and the event is deleted exactly when the resulting state
is RUN or ERROR, after which the tick never fires again. -/
theorem c9_default_tick_handler :
    CONNECTION_UPDATE_INTERVAL = 1000 ∧
    (∀ h : LDHandle,
       ld_install_default_handlers (some h) =
         (some { persist := true, interval := 1000, registered := true }, [])) ∧
    (∀ (next : Conn → Conn) (c : Conn) (ev : TimerEv),
       (connection_update next c ev).1 = next c) ∧
    (∀ (next : Conn → Conn) (c : Conn) (ev : TimerEv),
       ev.registered = true →
       ((connection_update next c ev).2.registered = false ↔
           ((next c).state = ConnState.RUN ∨ (next c).state = ConnState.ERROR)) ∧
         (connection_update next c ev).2.persist = ev.persist ∧
         (connection_update next c ev).2.interval = ev.interval) ∧
    (∀ (next : Conn → Conn) (c : Conn) (ev : TimerEv),
       ev.registered = true →
       ∀ n, tickRun next (n + 1) (c, ev) = tickRun next n (connection_update next c ev)) ∧
    (∀ (next : Conn → Conn) (c : Conn) (ev : TimerEv),
       ev.registered = false → ∀ n, tickRun next n (c, ev) = (c, ev)) := by
  refine ⟨rfl, fun _ => rfl, ?_, ?_, ?_, ?_⟩
  · intro next c ev
    by_cases hc : (next c).state = ConnState.RUN ∨ (next c).state = ConnState.ERROR <;>
      simp [connection_update, hc]
  · intro next c ev hev
    by_cases hc : (next c).state = ConnState.RUN ∨ (next c).state = ConnState.ERROR <;>
      simp [connection_update, hc, hev]
  · intro next c ev hev n
    simp [tickRun, hev]
  · intro next c ev hev n
    cases n <;> simp [tickRun, hev]

/-- Witness for C9: with a next_state oracle that lands in RUN immediately,
one fire deregisters the default tick and a further ten rounds change
nothing. -/
theorem c9_default_tick_handler_witness :
    ((connection_update (fun _ => { state := ConnState.RUN }) { state := ConnState.INIT }
          { persist := true, interval := 1000, registered := true }).2.registered = false ↔
        (({ state := ConnState.RUN } : Conn).state = ConnState.RUN ∨
          ({ state := ConnState.RUN } : Conn).state = ConnState.ERROR)) ∧
    tickRun (fun _ => { state := ConnState.RUN }) 10
        ({ state := ConnState.RUN }, { persist := true, interval := 1000, registered := false }) =
      ({ state := ConnState.RUN }, { persist := true, interval := 1000, registered := false }) := by
  constructor
  · exact (c9_default_tick_handler.2.2.2.1 (fun _ => { state := ConnState.RUN })
      { state := ConnState.INIT } { persist := true, interval := 1000, registered := true }
      rfl).1
  · exact c9_default_tick_handler.2.2.2.2.2 (fun _ => { state := ConnState.RUN })
      { state := ConnState.RUN } { persist := true, interval := 1000, registered := false }
      rfl 10

/-- C10: every call to one of the five entry operations that reaches the
per-call arena allocation and returns has released the arena on every path,
whatever the protocol verdict: the live arena set is unchanged and exactly
one arena identifier was consumed. -/
theorem c10_per_call_arena_released :
    (∀ (outcome : ProtoCall → OperationReturnCode) (h : LDHandle) (n p : CStr)
       (pfx : Option CStr) (attrs : List LDAPAttribute) (m : Mem) (r : OpResult),
       ld_add_entry outcome (some h) (some n) (some p) pfx attrs m = some r →
       r.mem.live = m.live ∧ r.mem.next = m.next + 1) ∧
    (∀ (outcome : ProtoCall → OperationReturnCode) (h : LDHandle) (n p : CStr)
       (pfx : Option CStr) (m : Mem) (r : OpResult),
       ld_del_entry outcome (some h) (some n) (some p) pfx m = some r →
       r.mem.live = m.live ∧ r.mem.next = m.next + 1) ∧
    (∀ (outcome : ProtoCall → OperationReturnCode) (h : LDHandle) (n p : CStr)
       (pfx : Option CStr) (attrs : List LDAPAttribute) (m : Mem) (r : OpResult),
       ld_mod_entry outcome (some h) (some n) (some p) pfx attrs m = some r →
       r.mem.live = m.live ∧ r.mem.next = m.next + 1) ∧
    (∀ (outcome : ProtoCall → OperationReturnCode) (h : LDHandle) (o_n n_n p : CStr)
       (pfx : Option CStr) (m : Mem) (r : OpResult),
       ld_rename_entry outcome (some h) (some o_n) (some n_n) (some p) pfx m = some r →
       r.mem.live = m.live ∧ r.mem.next = m.next + 1) ∧
    (∀ (outcome : ProtoCall → OperationReturnCode) (h : LDHandle) (n p : CStr)
       (pfx : Option CStr) (attrs : List LDAPAttribute) (opcode : Int) (m : Mem)
       (r : OpResult),
       ld_mod_entry_attrs outcome (some h) (some n) (some p) pfx attrs opcode m = some r →
       r.mem.live = m.live ∧ r.mem.next = m.next + 1) := by
  refine ⟨?_, ?_, ?_, ?_, ?_⟩
  · intro outcome h n p pfx attrs m r hr
    cases hr
    simp [talloc_free_arena, talloc_new_arena]
  · intro outcome h n p pfx m r hr
    cases hr
    simp [talloc_free_arena, talloc_new_arena]
  · intro outcome h n p pfx attrs m r hr
    cases hr
    simp [talloc_free_arena, talloc_new_arena]
  · intro outcome h o_n n_n p pfx m r hr
    cases hr
    simp [talloc_free_arena, talloc_new_arena]
  · intro outcome h n p pfx attrs opcode m r hr
    cases pfx with
    | none => simp [ld_mod_entry_attrs] at hr
    | some pre =>
      simp only [ld_mod_entry_attrs, Option.some.injEq] at hr
      subst hr
      simp [talloc_free_arena, talloc_new_arena]

/-- Witness for C10: a concrete ld_add_entry call that returns leaves the
live arena set empty as it began and consumed arena identifier 0. -/
theorem c10_per_call_arena_released_witness :
    ({ rc := OperationReturnCode.RETURN_CODE_SUCCESS
       calls := [ProtoCall.add "cn=u1,ou=people,dc=example,dc=com" []]
       log := []
       mem := { live := [], next := 1 } : OpResult }.mem.live = memEx.live) ∧
    ({ rc := OperationReturnCode.RETURN_CODE_SUCCESS
       calls := [ProtoCall.add "cn=u1,ou=people,dc=example,dc=com" []]
       log := []
       mem := { live := [], next := 1 } : OpResult }.mem.next = memEx.next + 1) :=
  c10_per_call_arena_released.1 ocEx hEx ⟨Owner.caller, "u1"⟩
    ⟨Owner.caller, "ou=people,dc=example,dc=com"⟩ (some ⟨Owner.caller, "cn"⟩) [] memEx
    { rc := OperationReturnCode.RETURN_CODE_SUCCESS
      calls := [ProtoCall.add "cn=u1,ou=people,dc=example,dc=com" []]
      log := []
      mem := { live := [], next := 1 } } rfl

/-- C1 counterexample: the claim fails on the code at two concrete inputs.
First, ld_init stores through its handle out-parameter before any check, so
a null session-handle pointer is dereferenced (crash), not logged-and-
returned.  Second, the prefix argument of the entry operations is never
null-checked: ld_mod_entry_attrs feeds a null prefix to strlen and crashes
instead of returning FAILURE. -/
theorem c1_null_guard_counterexample :
    ld_init_c true (some cfgEx) = none ∧
    ld_mod_entry_attrs ocEx (some hEx) (some ⟨Owner.caller, "u1"⟩)
        (some ⟨Owner.caller, "ou=people,dc=example,dc=com"⟩) none [] LDAP_MOD_REPLACE
        memEx = none :=
  ⟨rfl, rfl⟩

/-- C1 (amended): every public API function except ld_init rejects a null
session handle with a logged diagnostic and FAILURE (or a plain return for
the void functions), performing no action and leaving the heap untouched;
the five entry operations also fail fast on a null name, parent, old_name or
new_name — but not on a null prefix, and ld_init dereferences a null handle
pointer. -/
theorem c1_null_guards_amended :
    (ld_install_default_handlers none =
      (none, ["Invalid handle was provided - ld_install_default_handlers\n"])) ∧
    (∀ i, ld_install_handler none i =
      ([], ["Invalid handle was provided - ld_install_handler\n"])) ∧
    (∀ cb, ld_install_error_handler none cb =
      ([], ["Invalid handle - ld_install_error_handler\n"])) ∧
    (ld_exec none = ([], ["Invalid handle was provided - ld_exec\n"])) ∧
    (ld_exec_once none = ([], ["Invalid handle was provided - ld_exec_once\n"])) ∧
    (ld_free none = ([], ["Invalid handle was provided - ld_free"])) ∧
    (∀ outcome name parent pfx attrs m,
       ld_add_entry outcome none name parent pfx attrs m =
         some { rc := OperationReturnCode.RETURN_CODE_FAILURE, calls := []
                log := ["ld_add_entry - invalid argument"], mem := m }) ∧
    (∀ outcome h parent pfx attrs m,
       ld_add_entry outcome (some h) none parent pfx attrs m =
         some { rc := OperationReturnCode.RETURN_CODE_FAILURE, calls := []
                log := ["ld_add_entry - invalid argument"], mem := m }) ∧
    (∀ outcome h (n : CStr) pfx attrs m,
       ld_add_entry outcome (some h) (some n) none pfx attrs m =
         some { rc := OperationReturnCode.RETURN_CODE_FAILURE, calls := []
                log := ["ld_add_entry - invalid argument"], mem := m }) ∧
    (∀ outcome name parent pfx m,
       ld_del_entry outcome none name parent pfx m =
         some { rc := OperationReturnCode.RETURN_CODE_FAILURE, calls := []
                log := ["ld_del_entry - invalid argument"], mem := m }) ∧
    (∀ outcome h parent pfx m,
       ld_del_entry outcome (some h) none parent pfx m =
         some { rc := OperationReturnCode.RETURN_CODE_FAILURE, calls := []
                log := ["ld_del_entry - invalid argument"], mem := m }) ∧
    (∀ outcome h (n : CStr) pfx m,
       ld_del_entry outcome (some h) (some n) none pfx m =
         some { rc := OperationReturnCode.RETURN_CODE_FAILURE, calls := []
                log := ["ld_del_entry - invalid argument"], mem := m }) ∧
    (∀ outcome name parent pfx attrs m,
       ld_mod_entry outcome none name parent pfx attrs m =
         some { rc := OperationReturnCode.RETURN_CODE_FAILURE, calls := []
                log := ["ld_mod_entry - invalid argument"], mem := m }) ∧
    (∀ outcome h parent pfx attrs m,
       ld_mod_entry outcome (some h) none parent pfx attrs m =
         some { rc := OperationReturnCode.RETURN_CODE_FAILURE, calls := []
                log := ["ld_mod_entry - invalid argument"], mem := m }) ∧
    (∀ outcome h (n : CStr) pfx attrs m,
       ld_mod_entry outcome (some h) (some n) none pfx attrs m =
         some { rc := OperationReturnCode.RETURN_CODE_FAILURE, calls := []
                log := ["ld_mod_entry - invalid argument"], mem := m }) ∧
    (∀ outcome o_name n_name parent pfx m,
       ld_rename_entry outcome none o_name n_name parent pfx m =
         some { rc := OperationReturnCode.RETURN_CODE_FAILURE, calls := []
                log := ["ld_rename_entry - invalid argument"], mem := m }) ∧
    (∀ outcome h n_name parent pfx m,
       ld_rename_entry outcome (some h) none n_name parent pfx m =
         some { rc := OperationReturnCode.RETURN_CODE_FAILURE, calls := []
                log := ["ld_rename_entry - invalid argument"], mem := m }) ∧
    (∀ outcome h (o_n : CStr) parent pfx m,
       ld_rename_entry outcome (some h) (some o_n) none parent pfx m =
         some { rc := OperationReturnCode.RETURN_CODE_FAILURE, calls := []
                log := ["ld_rename_entry - invalid argument"], mem := m }) ∧
    (∀ outcome h (o_n n_n : CStr) pfx m,
       ld_rename_entry outcome (some h) (some o_n) (some n_n) none pfx m =
         some { rc := OperationReturnCode.RETURN_CODE_FAILURE, calls := []
                log := ["ld_rename_entry - invalid argument"], mem := m }) ∧
    (∀ outcome name parent pfx attrs opcode m,
       ld_mod_entry_attrs outcome none name parent pfx attrs opcode m =
         some { rc := OperationReturnCode.RETURN_CODE_FAILURE, calls := []
                log := ["ld_mod_entry_attrs - invalid argument"], mem := m }) ∧
    (∀ outcome h parent pfx attrs opcode m,
       ld_mod_entry_attrs outcome (some h) none parent pfx attrs opcode m =
         some { rc := OperationReturnCode.RETURN_CODE_FAILURE, calls := []
                log := ["ld_mod_entry_attrs - invalid argument"], mem := m }) ∧
    (∀ outcome h (n : CStr) pfx attrs opcode m,
       ld_mod_entry_attrs outcome (some h) (some n) none pfx attrs opcode m =
         some { rc := OperationReturnCode.RETURN_CODE_FAILURE, calls := []
                log := ["ld_mod_entry_attrs - invalid argument"], mem := m }) ∧
    (∀ cfg, ld_init_c true cfg = none) ∧
    (∀ outcome h (n p : CStr) attrs opcode m,
       ld_mod_entry_attrs outcome (some h) (some n) (some p) none attrs opcode m = none) :=
  ⟨rfl, fun _ => rfl, fun _ => rfl, rfl, rfl, rfl,
    fun _ _ _ _ _ _ => rfl, fun _ _ _ _ _ _ => rfl, fun _ _ _ _ _ _ => rfl,
    fun _ _ _ _ _ => rfl, fun _ _ _ _ _ => rfl, fun _ _ _ _ _ => rfl,
    fun _ _ _ _ _ _ => rfl, fun _ _ _ _ _ _ => rfl, fun _ _ _ _ _ _ => rfl,
    fun _ _ _ _ _ _ => rfl, fun _ _ _ _ _ _ => rfl, fun _ _ _ _ _ _ => rfl,
    fun _ _ _ _ _ _ => rfl,
    fun _ _ _ _ _ _ _ => rfl, fun _ _ _ _ _ _ _ => rfl, fun _ _ _ _ _ _ _ => rfl,
    fun _ => rfl, fun _ _ _ _ _ _ _ => rfl⟩

/-- C2 counterexample: after ld_init on a concrete settings record, strings
reachable from the session are not independent session-arena copies:
talloc_memdup copies the ld_config_t struct shallowly, so global_config.host
still points at caller memory, and config_ctx->server is a plain pointer
alias of the caller host string. -/
theorem c2_deep_copy_counterexample :
    (ld_init cfgEx).global_config.host.owner = Owner.caller ∧
    ¬ (ld_init cfgEx).global_config.host.owner = Owner.sessionArena ∧
    (ld_init cfgEx).config_ctx.server = cfgEx.host ∧
    ¬ (ld_init cfgEx).config_ctx.server.owner = Owner.sessionArena := by
  refine ⟨rfl, ?_, rfl, ?_⟩ <;> decide

/-- C2 (amended): ld_init copies the settings struct only shallowly
(talloc_memdup of the record), so the strings inside global_config and the
config_ctx server field alias the caller strings and are not session
copies; only the bind DN, the bind password byte-vector, the SASL password
and the TLS path triple are independent copies in the session arena. -/
theorem c2_shallow_copy_amended (cfg : LdConfig) :
    (ld_init cfg).global_config = cfg ∧
    (ld_init cfg).config_ctx.server = cfg.host ∧
    (ld_init cfg).ldap_params.dn.owner = Owner.sessionArena ∧
    (∀ pw, cfg.password = some pw →
       (ld_init cfg).ldap_params.passwd_bv_val = some ⟨Owner.sessionArena, pw.s⟩) ∧
    (∀ so, (ld_init cfg).config_ctx.sasl_options = some so →
       ∀ pw, cfg.password = some pw → so.passwd = some ⟨Owner.sessionArena, pw.s⟩) ∧
    (cfg.use_tls = true →
       (ld_init cfg).config_ctx.tls_ca_cert_file =
           some ⟨Owner.sessionArena, cfg.cacertfile.s⟩ ∧
         (ld_init cfg).config_ctx.tls_cert_file =
           some ⟨Owner.sessionArena, cfg.certfile.s⟩ ∧
         (ld_init cfg).config_ctx.tls_key_file =
           some ⟨Owner.sessionArena, cfg.keyfile.s⟩) := by
  refine ⟨rfl, rfl, rfl, ?_, ?_, ?_⟩
  · intro pw hp
    simp [ld_init, hp, talloc_strdup_session]
  · intro so hso pw hp
    cases hs : cfg.use_sasl <;> simp [ld_init, hs] at hso
    subst hso
    simp [hp, talloc_strdup_session]
  · intro ht
    exact ⟨by simp [ld_init, ht, talloc_strdup_session],
      by simp [ld_init, ht, talloc_strdup_session],
      by simp [ld_init, ht, talloc_strdup_session]⟩

/-- Witness for the amended C2: on cfgEx the bind password value and the TLS
CA path are session-arena copies while global_config still holds the caller
record verbatim. -/
theorem c2_shallow_copy_amended_witness :
    (ld_init cfgEx).global_config = cfgEx ∧
    (ld_init cfgEx).ldap_params.passwd_bv_val =
      some ⟨Owner.sessionArena, "s3cret"⟩ ∧
    (ld_init cfgEx).config_ctx.tls_ca_cert_file =
      some ⟨Owner.sessionArena, "/etc/ca.pem"⟩ :=
  ⟨(c2_shallow_copy_amended cfgEx).1,
    (c2_shallow_copy_amended cfgEx).2.2.2.1 ⟨Owner.caller, "s3cret"⟩ rfl,
    ((c2_shallow_copy_amended cfgEx).2.2.2.2.2 rfl).1⟩

end Libdomain
